import Mathlib

set_option autoImplicit false

/-!
Shallow embedding of the tcp-server connection/protocol layer.

Sources under src/: src/tcp/protocol.rs (Protocol impl), src/game/player.rs
(Player impl).  The files client.rs, packet.rs, header.rs, checksum.rs and the
current errors.rs of this repository are not under src/; the definitions that
stand in for them are marked "Modelled from the spec:" and follow the spec's
words (sections 3, 4.1, 4.2, 4.4, 6).

Effect model: socket writes, HTTP calls and CBOR deserialisation are oracles
collected in an Env; each protocol operation threads a NetSt holding the
write-oracle cursor and a trace of observable events (write attempts, sleeps,
pacing ticks, disconnect markers, registry insertions).
-/

/-- Header types of the wire protocol.  Modelled from the spec: header.rs is
not under src/; the variant set is spec section 6 plus the uses in
protocol.rs. -/
inductive HeaderType where
  | Connect
  | Reconnect
  | Disconnect
  | PlayCard
  | GameStateUpdate
  | InvalidChecksum
  | InvalidHeader
  | InvalidPacketPayload
  | PlayerConnected
  | Err
  deriving DecidableEq

/-- Fixed-size packet header: type tag, payload length, checksum
(spec section 3). -/
structure PacketHeader where
  header_type : HeaderType
  payload_length : Nat
  checksum : Nat
  deriving DecidableEq

/-- One framed protocol message: header plus payload bytes. -/
structure Packet where
  header : PacketHeader
  payload : List Nat
  deriving DecidableEq

namespace Checksum

/-- Modelled from the spec: checksum.rs is not under src/.  Spec section 4.2
requires a pure deterministic function of the payload bytes; byte-sum modulo
2^32 is used as a concrete instance. -/
def compute (payload : List Nat) : Nat :=
  (payload.foldl (fun a b => a + b) 0) % 4294967296

/-- Checksum::check as used by Protocol::handle_incoming: compare the claimed
checksum with the recomputed one. -/
def check (claimed : Nat) (payload : List Nat) : Bool :=
  claimed = compute payload

end Checksum

/-- Packet::new(header_type, payload): constructs a packet whose length and
checksum satisfy the framing invariant (spec section 3; packet.rs is not under
src/, modelled from the spec). -/
def Packet.new (t : HeaderType) (payload : List Nat) : Packet :=
  ⟨⟨t, payload.length, Checksum.compute payload⟩, payload⟩

/-- Decode failures of Packet::parse (spec section 4.1). -/
inductive DecodeError where
  | MalformedHeader
  | TruncatedPayload
  deriving DecidableEq

/-- Big-endian 4-byte integer. -/
def be4 (b0 b1 b2 b3 : Nat) : Nat :=
  ((b0 * 256 + b1) * 256 + b2) * 256 + b3

/-- Wire tag of each header type (spec section 6: wire values are
implementation-defined but stable). -/
def HeaderType.ofTag : Nat → Option HeaderType
  | 0 => some .Connect
  | 1 => some .Reconnect
  | 2 => some .Disconnect
  | 3 => some .PlayCard
  | 4 => some .GameStateUpdate
  | 5 => some .InvalidChecksum
  | 6 => some .InvalidHeader
  | 7 => some .InvalidPacketPayload
  | 8 => some .PlayerConnected
  | 9 => some .Err
  | _ => none

/-- Modelled from the spec: packet.rs is not under src/.  Spec sections 4.1
and 6: fixed header (1-byte tag, 4-byte length, 4-byte checksum) followed by
payload_length bytes; MalformedHeader when fewer than the header size is
available, TruncatedPayload when the declared length exceeds the available
bytes; decoding never checks the checksum. -/
def Packet.parse (buffer : List Nat) : Except DecodeError Packet :=
  match buffer with
  | t :: l0 :: l1 :: l2 :: l3 :: c0 :: c1 :: c2 :: c3 :: rest =>
    match HeaderType.ofTag t with
    | none => .error .MalformedHeader
    | some ht =>
      let len := be4 l0 l1 l2 l3
      if rest.length < len then .error .TruncatedPayload
      else .ok ⟨⟨ht, len, be4 c0 c1 c2 c3⟩, rest.take len⟩
  | _ => .error .MalformedHeader

/-- Connect request payload (spec section 6; models/client_requests.rs is not
under src/, fields as used by player.rs). -/
structure ConnectionRequest where
  player_id : String
  auth_token : String
  current_deck_id : String
  deriving DecidableEq

/-- Reconnect request payload (spec section 6). -/
structure ReconnectionRequest where
  player_id : String
  auth_token : String
  deriving DecidableEq

/-- PlayCard request payload (spec section 6). -/
structure PlayCardRequest where
  player_id : String
  card_id : String
  deriving DecidableEq

/-- Profile summary returned by the auth service (spec section 6:
id, username, level). -/
structure PartialPlayerProfile where
  id : String
  username : String
  level : Nat
  deriving DecidableEq

/-- Deck: ordered list of card references (spec section 3; models/deck.rs is
not under src/). -/
structure Deck where
  cards : List String
  deriving DecidableEq

/-- Player record, fields exactly as in src/game/player.rs. -/
structure Player where
  id : String
  level : Nat
  username : String
  current_deck : Deck
  player_token : String
  current_deck_id : String
  deriving DecidableEq

/-- Error enum as used by src/game/player.rs and src/tcp/protocol.rs (the
errors.rs under src/ is an older revision; the variant set is taken from the
uses in those two files). -/
inductive PlayerConnectionError where
  | InvalidPlayerPayload (reason : String)
  | UnauthorizedPlayerError
  | UnexpectedPlayerError
  | PlayerDoesNotMatch
  | PlayerNotConnected
  | InternalError (reason : String)
  | DeckNotFound
  | InvalidDeckFormat
  | UnauthorizedDeckError
  | UnexpectedDeckError
  deriving DecidableEq

/-- Network error as used by Protocol::send_packet. -/
inductive NetworkError where
  | PackageWriteError (reason : String)
  deriving DecidableEq

/-- Outcome of an HTTP GET as the Rust code observes it through reqwest:
either a response arrived (status plus the result of deserialising its body),
or the request itself failed with an optional status attached to the error. -/
inductive HttpResp (β : Type) where
  | ok (status : Nat) (body : Except String β)
  | err (status : Option Nat)

namespace Player

/-- Player::get_player_profile (src/game/player.rs lines 123-158): a received
401 is UnauthorizedPlayerError; any other received response is fed to profile
deserialisation, whose failure is InvalidPlayerPayload; a transport error maps
401 to UnauthorizedPlayerError and everything else (default 500) to
UnexpectedPlayerError. -/
def get_player_profile (resp : HttpResp PartialPlayerProfile) :
    Except PlayerConnectionError PartialPlayerProfile :=
  match resp with
  | .ok status body =>
    if status = 401 then .error .UnauthorizedPlayerError
    else
      match body with
      | .ok profile => .ok profile
      | .error _ =>
        .error (.InvalidPlayerPayload "Failed to deserialize player profile")
  | .err st =>
    if st.getD 500 = 401 then .error .UnauthorizedPlayerError
    else .error .UnexpectedPlayerError

/-- Player::get_player_deck (src/game/player.rs lines 88-121). -/
def get_player_deck (resp : HttpResp Deck) : Except PlayerConnectionError Deck :=
  match resp with
  | .ok status body =>
    if status = 200 then
      match body with
      | .ok deck => .ok deck
      | .error _ => .error .InvalidDeckFormat
    else if status = 404 then .error .DeckNotFound
    else .error .UnexpectedDeckError
  | .err st =>
    if st.getD 500 = 401 then .error .UnauthorizedDeckError
    else .error .UnexpectedDeckError

/-- Player::new_connection (src/game/player.rs lines 34-68): deserialise the
connect request, fetch the profile, then the deck, and build the Player; any
failure short-circuits.  The CBOR deserialisation and the two HTTP calls are
supplied as oracle values. -/
def new_connection (parsed : Except String ConnectionRequest)
    (profileResp : HttpResp PartialPlayerProfile) (deckResp : HttpResp Deck) :
    Except PlayerConnectionError Player :=
  match parsed with
  | .error reason =>
    .error (.InvalidPlayerPayload (reason ++ " (ConnRequest CBOR Deserialisation)"))
  | .ok request =>
    match get_player_profile profileResp with
    | .error e => .error e
    | .ok profile =>
      match get_player_deck deckResp with
      | .error e => .error e
      | .ok deck =>
        .ok { id := request.player_id, current_deck := deck,
              player_token := request.auth_token, level := profile.level,
              username := profile.username,
              current_deck_id := request.current_deck_id }

/-- Player::reconnection (src/game/player.rs lines 70-86): deserialise the
reconnect request, fetch the profile, and fail with PlayerDoesNotMatch when
the resolved profile id differs from the claimed player id. -/
def reconnection (parsed : Except String ReconnectionRequest)
    (profileResp : HttpResp PartialPlayerProfile) :
    Except PlayerConnectionError String :=
  match parsed with
  | .ok request =>
    match get_player_profile profileResp with
    | .error e => .error e
    | .ok profile =>
      if profile.id ≠ request.player_id then .error .PlayerDoesNotMatch
      else .ok profile.id
  | .error reason =>
    .error (.InvalidPlayerPayload (reason ++ " (ConnRequest CBOR Deserialisation)"))

end Player

/-- Modelled from the spec: client.rs is not under src/.  Temporary
(unauthenticated) connection: raw stream handle and address only
(spec section 3). -/
structure TemporaryClient where
  addr : String
  stream : Nat
  deriving DecidableEq

/-- Modelled from the spec: client.rs is not under src/.  Full connection
record (spec section 3): address, stream halves, connected flag, missed-packet
queue, player. -/
structure Client where
  addr : String
  read_half : Nat
  write_half : Nat
  connected : Bool
  missed_packets : List Packet
  player : Player
  deriving DecidableEq

/-- Modelled from the spec: Client::new (client.rs not under src/).  A promoted
client takes the split halves of the consumed temporary stream, starts
connected, with an empty missed-packet queue (spec section 3). -/
def Client.new (read_half write_half : Nat) (addr : String) (player : Player) :
    Client :=
  ⟨addr, read_half, write_half, true, [], player⟩

/-- Modelled from the spec: Client::reconnect (client.rs not under src/)
replaces the stored stream halves with the new socket's halves and flips
connected back to true (spec section 3); the missed-packet flush itself is
Protocol.send_missed_packets. -/
def Client.reconnect (client : Client) (temp : TemporaryClient) : Client :=
  { client with read_half := temp.stream, write_half := temp.stream,
                connected := true }

/-- Observable events of one protocol operation, in order of occurrence. -/
inductive Event where
  | writeAttempt (packet : Packet) (ok : Bool)
  | sleepMs (ms : Nat)
  | tickMicros (us : Nat)
  | disconnectClient (addr : String)
  | registryInsert (player_id : String)
  | spawnClientTask (player_id : String)
  | closeServer
  | errorResponse
  | closeSocket
  deriving DecidableEq

/-- Threaded network state: cursor into the write oracle plus the event trace
accumulated so far. -/
structure NetSt where
  cursor : Nat
  trace : List Event
  deriving DecidableEq

/-- Oracles for everything the protocol layer observes from outside:
the outcome of each successive socket write, the three CBOR deserialisers,
the two HTTP responses, and the outcome of fetch_cards_details. -/
structure Env where
  write_ok : Nat → Bool
  parseConn : List Nat → Except String ConnectionRequest
  parseReconn : List Nat → Except String ReconnectionRequest
  parsePlayCard : List Nat → Except String PlayCardRequest
  profileResp : HttpResp PartialPlayerProfile
  deckResp : HttpResp Deck
  fetch_cards_ok : Bool

/-- Registry of authenticated clients: player id to connection record
(ServerInstance.players). -/
abbrev Registry := List (String × Client)

/-- HashMap::insert semantics: replace the value when the key is present,
otherwise add the binding. -/
def registryInsert : Registry → String → Client → Registry
  | [], key, client => [(key, client)]
  | (k, c) :: rest, key, client =>
    if k = key then (k, client) :: rest
    else (k, c) :: registryInsert rest key client

/-- HashMap::get semantics. -/
def registryLookup : Registry → String → Option Client
  | [], _ => none
  | (k, c) :: rest, key => if k = key then some c else registryLookup rest key

namespace Protocol

/-- Result of Protocol::send_packet together with the threaded state. -/
structure SendOut where
  result : Except NetworkError Unit
  st : NetSt

/-- The retry loop of Protocol::send_packet (src/tcp/protocol.rs lines
94-112): attempt a write; on failure sleep 500 ms and retry while fewer than
3 attempts were made. -/
def send_packet_go (env : Env) (packet : Packet) : Nat → NetSt → SendOut
  | 0, s => ⟨.error (.PackageWriteError "Unknown error"), s⟩
  | fuel + 1, s =>
    if env.write_ok s.cursor then
      ⟨.ok (), ⟨s.cursor + 1, s.trace ++ [.writeAttempt packet true]⟩⟩
    else
      send_packet_go env packet fuel
        ⟨s.cursor + 1, s.trace ++ [.writeAttempt packet false, .sleepMs 500]⟩

/-- Protocol::send_packet (src/tcp/protocol.rs lines 89-115): up to 3 write
attempts, PackageWriteError after exhausting them.  It never touches the
client record. -/
def send_packet (env : Env) (client : Client) (packet : Packet) (s : NetSt) :
    SendOut :=
  send_packet_go env packet 3 s

/-- A client-returning protocol step together with the threaded state. -/
structure ClientOut where
  client : Client
  st : NetSt
  deriving DecidableEq

/-- Protocol::disconnect (src/tcp/protocol.rs lines 125-130): log and set the
connected flag to false; nothing else. -/
def disconnect (client : Client) (s : NetSt) : ClientOut :=
  ⟨{ client with connected := false },
   ⟨s.cursor, s.trace ++ [.disconnectClient client.addr]⟩⟩

/-- Protocol::send_or_disconnect (src/tcp/protocol.rs lines 137-142):
disconnect only when the send failed. -/
def send_or_disconnect (env : Env) (client : Client) (packet : Packet)
    (s : NetSt) : ClientOut :=
  let out := send_packet env client packet s
  match out.result with
  | .error _ => disconnect client out.st
  | .ok _ => ⟨client, out.st⟩

/-- Protocol::send_and_disconnect (src/tcp/protocol.rs lines 149-153):
send, ignore the outcome, disconnect. -/
def send_and_disconnect (env : Env) (client : Client) (packet : Packet)
    (s : NetSt) : ClientOut :=
  let out := send_packet env client packet s
  disconnect client out.st

/-- Result of a packet handler: the client record, the threaded state, and
the panic raised by an unimplemented body, if any. -/
structure HandlerOut where
  client : Client
  st : NetSt
  panicMsg : Option String
  deriving DecidableEq

/-- Byte content of the InvalidPacketPayload response body used by
Protocol::handle_packet. -/
def invalidPlayCardMsg : List Nat :=
  "Could not parse play card request.".toList.map Char.toNat

/-- Protocol::handle_play_card (src/tcp/protocol.rs lines 316-322): the body
is a bare todo! macro, so every call panics. -/
def handle_play_card (env : Env) (client : Client) (request : PlayCardRequest)
    (s : NetSt) : HandlerOut :=
  ⟨client, s, some "not yet implemented"⟩

/-- Protocol::handle_disconnect (src/tcp/protocol.rs lines 294-297). -/
def handle_disconnect (env : Env) (client : Client) (s : NetSt) : HandlerOut :=
  let out := send_and_disconnect env client (Packet.new .Disconnect []) s
  ⟨out.client, out.st, none⟩

/-- Protocol::handle_packet (src/tcp/protocol.rs lines 156-177): route by
header type; a PlayCard payload that fails to deserialise is answered with
InvalidPacketPayload through a plain send_packet whose result is discarded;
any unrecognised type is answered with InvalidHeader via send_or_disconnect. -/
def handle_packet (env : Env) (client : Client) (packet : Packet) (s : NetSt) :
    HandlerOut :=
  match packet.header.header_type with
  | .Disconnect => handle_disconnect env client s
  | .PlayCard =>
    match env.parsePlayCard packet.payload with
    | .ok request => handle_play_card env client request s
    | .error _ =>
      let invalid := Packet.new .InvalidPacketPayload invalidPlayCardMsg
      let out := send_packet env client invalid s
      ⟨client, out.st, none⟩
  | _ =>
    let out := send_or_disconnect env client (Packet.new .InvalidHeader []) s
    ⟨out.client, out.st, none⟩

/-- Protocol::handle_incoming (src/tcp/protocol.rs lines 56-76): parse the
buffer (log-and-drop on failure); on a checksum mismatch send InvalidChecksum
via send_or_disconnect and return; otherwise dispatch to handle_packet. -/
def handle_incoming (env : Env) (client : Client) (buffer : List Nat)
    (s : NetSt) : HandlerOut :=
  match Packet.parse buffer with
  | .error _ => ⟨client, s, none⟩
  | .ok packet =>
    if ¬ Checksum.check packet.header.checksum packet.payload then
      let out := send_or_disconnect env client (Packet.new .InvalidChecksum []) s
      ⟨out.client, out.st, none⟩
    else handle_packet env client packet s

/-- Result of the connect and reconnect handlers. -/
structure ConnOut where
  result : Except PlayerConnectionError Unit
  registry : Registry
  st : NetSt

/-- Protocol::handle_connect (src/tcp/protocol.rs lines 191-234): resolve the
player; try to take sole ownership of the temporary client (temp_unique is
the outcome of Arc::try_unwrap); on success split its stream, build the
Client, insert it into the registry, spawn its task, and fetch the deck's
card details, closing the server when that fails; a failed unwrap is an
InternalError. -/
def handle_connect (env : Env) (registry : Registry) (temp_unique : Bool)
    (temp : TemporaryClient) (packet : Packet) (s : NetSt) : ConnOut :=
  match Player.new_connection (env.parseConn packet.payload) env.profileResp
      env.deckResp with
  | .error e => ⟨.error e, registry, s⟩
  | .ok player =>
    if temp_unique then
      let client := Client.new temp.stream temp.stream temp.addr player
      let registry1 := registryInsert registry player.id client
      let s1 : NetSt :=
        ⟨s.cursor, s.trace ++ [.registryInsert player.id,
                               .spawnClientTask player.id]⟩
      if env.fetch_cards_ok then ⟨.ok (), registry1, s1⟩
      else ⟨.ok (), registry1, ⟨s1.cursor, s1.trace ++ [.closeServer]⟩⟩
    else ⟨.error (.InternalError "Failed to unwrap temporary client"), registry, s⟩

/-- Modelled from the spec: the temporary-client task (client.rs is not under
src/).  Spec section 4.4: on any connect-handling failure the temporary handle
is not promoted, an error response is attempted and the socket is closed. -/
def temp_connect_task (env : Env) (registry : Registry) (temp_unique : Bool)
    (temp : TemporaryClient) (packet : Packet) (s : NetSt) : ConnOut :=
  let out := handle_connect env registry temp_unique temp packet s
  match out.result with
  | .ok _ => out
  | .error e =>
    ⟨.error e, out.registry,
     ⟨out.st.cursor, out.st.trace ++ [.errorResponse, .closeSocket]⟩⟩

/-- Protocol::handle_reconnect (src/tcp/protocol.rs lines 250-292): resolve
the reconnecting player; look its id up in the registry (PlayerNotConnected
when absent); take ownership of the temporary client (InternalError when not
sole owner); otherwise reconnect the stored client in place.  The in-place
mutation through the shared record is modelled by writing the updated client
back under the same key. -/
def handle_reconnect (env : Env) (registry : Registry) (temp_unique : Bool)
    (temp : TemporaryClient) (packet : Packet) (s : NetSt) : ConnOut :=
  match Player.reconnection (env.parseReconn packet.payload) env.profileResp with
  | .error e => ⟨.error e, registry, s⟩
  | .ok pid =>
    match registryLookup registry pid with
    | some client =>
      if temp_unique then
        ⟨.ok (), registryInsert registry pid (Client.reconnect client temp), s⟩
      else ⟨.error (.InternalError "Unable to unwrap temporary client"),
            registry, s⟩
    | none => ⟨.error .PlayerNotConnected, registry, s⟩

/-- The drain loop of Protocol::send_missed_packets (src/tcp/protocol.rs lines
331-349): pop the queue front, send it via send_or_disconnect, await a pacing
tick, and repeat until the queue is empty. -/
def send_missed_go (env : Env) : List Packet → Client → NetSt → ClientOut
  | [], client, s => ⟨client, s⟩
  | packet :: rest, client, s =>
    let out := send_or_disconnect env { client with missed_packets := rest }
        packet s
    send_missed_go env rest out.client
      ⟨out.st.cursor, out.st.trace ++ [.tickMicros 30]⟩

/-- Protocol::send_missed_packets (src/tcp/protocol.rs lines 331-349). -/
def send_missed_packets (env : Env) (client : Client) (s : NetSt) : ClientOut :=
  send_missed_go env client.missed_packets client s

end Protocol

/-- Packets of the write attempts recorded in a trace, in order. -/
def attempted (t : List Event) : List Packet :=
  t.filterMap fun e =>
    match e with
    | .writeAttempt p _ => some p
    | _ => none

/-- Whether an event is a client disconnection. -/
def Event.isDisc : Event → Bool
  | .disconnectClient _ => true
  | _ => false

/-- Whether an event is a pacing tick. -/
def Event.isTick : Event → Bool
  | .tickMicros _ => true
  | _ => false

/-- Number of pacing ticks in a trace. -/
def tickCount (t : List Event) : Nat :=
  t.countP Event.isTick

/-- Fixture player record. -/
def playerA : Player := ⟨"p1", 1, "alice", ⟨[]⟩, "tok", "d1"⟩

/-- Fixture connected client with an empty missed-packet queue. -/
def clientA : Client := ⟨"addr1", 0, 1, true, [], playerA⟩

/-- Fixture packets. -/
def packetA : Packet := Packet.new .GameStateUpdate []

/-- Second fixture packet, distinct from packetA. -/
def packetB : Packet := Packet.new .GameStateUpdate [1]

/-- Fixture client with two queued missed packets. -/
def clientQ : Client := ⟨"addr1", 0, 1, true, [packetA, packetB], playerA⟩

/-- Fixture PlayCard packet whose payload is empty. -/
def packetPC : Packet := ⟨⟨.PlayCard, 0, 0⟩, []⟩

/-- Fixture buffer parsing to a zero-length packet whose claimed checksum 1
differs from the computed checksum 0. -/
def badChecksumBuffer : List Nat := [2, 0, 0, 0, 0, 0, 0, 0, 1]

/-- Env whose socket writes all fail and whose other oracles are inert. -/
def envAllFail : Env :=
  ⟨fun _ => false, fun _ => .error "e", fun _ => .error "e",
   fun _ => .error "e", .err none, .err none, true⟩

/-- Env whose socket writes all succeed and whose parsers fail. -/
def envAllOk : Env :=
  ⟨fun _ => true, fun _ => .error "e", fun _ => .error "e",
   fun _ => .error "e", .err none, .err none, true⟩

/-- Env whose PlayCard payloads deserialise successfully. -/
def envPlayOk : Env :=
  ⟨fun _ => true, fun _ => .error "e", fun _ => .error "e",
   fun _ => .ok ⟨"p1", "c1"⟩, .err none, .err none, true⟩

/-- Env whose connect requests parse and whose profile service answers 401. -/
def env401 : Env :=
  ⟨fun _ => true, fun _ => .ok ⟨"p1", "tok", "d1"⟩, fun _ => .error "e",
   fun _ => .error "e", .ok 401 (.error "unauthorized"), .err none, true⟩

/-- Fixture profile matching playerA. -/
def profileA : PartialPlayerProfile := ⟨"p1", "alice", 1⟩

/-- Env whose connect requests parse and whose profile and deck services both
answer 200 with well-formed bodies resolving to playerA. -/
def envConnOk : Env :=
  ⟨fun _ => true, fun _ => .ok ⟨"p1", "tok", "d1"⟩, fun _ => .error "e",
   fun _ => .error "e", .ok 200 (.ok profileA), .ok 200 (.ok ⟨[]⟩), true⟩

/-- Fixture temporary clients on distinct sockets. -/
def tempA : TemporaryClient := ⟨"addrA", 1⟩

/-- Second fixture temporary client. -/
def tempB : TemporaryClient := ⟨"addrB", 2⟩

/-- Env whose reconnect requests parse to a claim of player id p2 while the
profile service resolves the token to profileA (id p1). -/
def envReconnMismatch : Env :=
  ⟨fun _ => true, fun _ => .error "e", fun _ => .ok ⟨"p2", "tok"⟩,
   fun _ => .error "e", .ok 200 (.ok profileA), .err none, true⟩

/-- Initial threaded state. -/
def st0 : NetSt := ⟨0, []⟩

/-- When every socket write succeeds, send_packet succeeds on its first
attempt and records exactly one write. -/
theorem send_packet_all_ok (env : Env) (client : Client) (packet : Packet)
    (s : NetSt) (h : ∀ i, env.write_ok i = true) :
    Protocol.send_packet env client packet s =
      ⟨.ok (), ⟨s.cursor + 1, s.trace ++ [.writeAttempt packet true]⟩⟩ := by
  simp [Protocol.send_packet, Protocol.send_packet_go, h s.cursor]

/-- Every send_packet call appends between 1 and 3 write attempts of its
packet (and sleeps), never a disconnect marker or a pacing tick, and advances
the write cursor by the number of attempts. -/
theorem send_packet_shape (env : Env) (client : Client) (packet : Packet)
    (s : NetSt) :
    ∃ t k,
      (Protocol.send_packet env client packet s).st.trace = s.trace ++ t ∧
      (Protocol.send_packet env client packet s).st.cursor = s.cursor + k ∧
      1 ≤ k ∧ k ≤ 3 ∧
      attempted t = List.replicate k packet ∧
      (∀ e ∈ t, e.isDisc = false) ∧
      (∀ e ∈ t, e.isTick = false) := by
  cases h0 : env.write_ok s.cursor with
  | true =>
    refine ⟨[.writeAttempt packet true], 1, ?_⟩
    simp [Protocol.send_packet, Protocol.send_packet_go, h0, attempted,
      Event.isDisc, Event.isTick]
  | false =>
    cases h1 : env.write_ok (s.cursor + 1) with
    | true =>
      refine ⟨[.writeAttempt packet false, .sleepMs 500,
               .writeAttempt packet true], 2, ?_⟩
      simp [Protocol.send_packet, Protocol.send_packet_go, h0, h1, attempted,
        Event.isDisc, Event.isTick, List.replicate]
    | false =>
      cases h2 : env.write_ok (s.cursor + 2) with
      | true =>
        refine ⟨[.writeAttempt packet false, .sleepMs 500,
                 .writeAttempt packet false, .sleepMs 500,
                 .writeAttempt packet true], 3, ?_⟩
        simp [Protocol.send_packet, Protocol.send_packet_go, h0, h1, h2,
          attempted, Event.isDisc, Event.isTick, List.replicate]
      | false =>
        refine ⟨[.writeAttempt packet false, .sleepMs 500,
                 .writeAttempt packet false, .sleepMs 500,
                 .writeAttempt packet false, .sleepMs 500], 3, ?_⟩
        simp [Protocol.send_packet, Protocol.send_packet_go, h0, h1, h2,
          attempted, Event.isDisc, Event.isTick, List.replicate]

/-- send_or_disconnect appends the write attempts of its packet (1 to 3 of
them), possibly a final disconnect marker, never a pacing tick; the returned
client differs from the input at most in its connected flag. -/
theorem send_or_disconnect_shape (env : Env) (client : Client) (packet : Packet)
    (s : NetSt) :
    ∃ t k,
      (Protocol.send_or_disconnect env client packet s).st.trace = s.trace ++ t ∧
      1 ≤ k ∧ k ≤ 3 ∧
      attempted t = List.replicate k packet ∧
      (∀ e ∈ t, e.isTick = false) ∧
      (Protocol.send_or_disconnect env client packet s).client.missed_packets
        = client.missed_packets ∧
      (Protocol.send_or_disconnect env client packet s).client.addr
        = client.addr ∧
      (Protocol.send_or_disconnect env client packet s).client.player
        = client.player := by
  obtain ⟨t, k, htr, hcur, hk1, hk3, hatt, hdisc, htick⟩ :=
    send_packet_shape env client packet s
  cases hr : (Protocol.send_packet env client packet s).result with
  | ok u =>
    refine ⟨t, k, ?_, hk1, hk3, hatt, htick, ?_, ?_, ?_⟩ <;>
      simp [Protocol.send_or_disconnect, hr, htr]
  | error e =>
    refine ⟨t ++ [.disconnectClient client.addr], k, ?_⟩
    constructor
    · simp [Protocol.send_or_disconnect, hr, Protocol.disconnect, htr]
    refine ⟨hk1, hk3, ?_, ?_, ?_⟩
    · simp [attempted, List.filterMap_append] at hatt ⊢
      simp [hatt, attempted]
    · intro e he
      rcases List.mem_append.mp he with h | h
      · exact htick e h
      · simp at h
        simp [h, Event.isTick]
    · simp [Protocol.send_or_disconnect, hr, Protocol.disconnect]

/-- Looking up the key just inserted returns the inserted value. -/
theorem registryLookup_insert (registry : Registry) (key : String) (c : Client) :
    registryLookup (registryInsert registry key c) key = some c := by
  induction registry with
  | nil => simp [registryInsert, registryLookup]
  | cons kv rest ih =>
    by_cases h : kv.1 = key
    · simp [registryInsert, registryLookup, h]
    · simp [registryInsert, registryLookup, h, ih]

/-- The drain loop sends the queued packets in queue order: the write attempts
it appends are exactly the queue, each entry repeated once per attempt (1 to 3
times), with one pacing tick per queue entry. -/
theorem send_missed_go_shape (env : Env) (q : List Packet) :
    ∀ (client : Client) (s : NetSt),
      ∃ t ks,
        (Protocol.send_missed_go env q client s).st.trace = s.trace ++ t ∧
        ks.length = q.length ∧
        (∀ k ∈ ks, 1 ≤ k ∧ k ≤ 3) ∧
        attempted t = (List.zipWith List.replicate ks q).flatten ∧
        tickCount t = q.length := by
  induction q with
  | nil =>
    intro client s
    exact ⟨[], [], by simp [Protocol.send_missed_go], by simp, by simp,
      by simp [attempted], by simp [tickCount]⟩
  | cons p rest ih =>
    intro client s
    obtain ⟨t0, k0, htr0, hk01, hk03, hatt0, htick0, hm0, ha0, hp0⟩ :=
      send_or_disconnect_shape env { client with missed_packets := rest } p s
    obtain ⟨t1, ks1, htr1, hlen1, hbound1, hatt1, htick1⟩ :=
      ih (Protocol.send_or_disconnect env { client with missed_packets := rest }
            p s).client
        ⟨(Protocol.send_or_disconnect env { client with missed_packets := rest }
            p s).st.cursor,
         (Protocol.send_or_disconnect env { client with missed_packets := rest }
            p s).st.trace ++ [.tickMicros 30]⟩
    refine ⟨t0 ++ [.tickMicros 30] ++ t1, k0 :: ks1, ?_, ?_, ?_, ?_, ?_⟩
    · show (Protocol.send_missed_go env (p :: rest) client s).st.trace = _
      simp only [Protocol.send_missed_go]
      rw [htr1, htr0]
      simp
    · simp [hlen1]
    · intro k hk
      rcases List.mem_cons.mp hk with h | h
      · exact h ▸ ⟨hk01, hk03⟩
      · exact hbound1 k h
    · simp only [attempted, List.filterMap_append] at hatt0 hatt1 ⊢
      simp [hatt0, hatt1, List.zipWith, attempted]
    · simp only [tickCount, List.countP_append] at htick1 ⊢
      have h0 : List.countP Event.isTick t0 = 0 := by
        rw [List.countP_eq_zero]
        intro e he
        simp [htick0 e he]
      simp [h0, htick1, tickCount, Event.isTick, List.countP_cons]
      omega

/-- The drain loop leaves the queue field empty whenever it had anything to
drain. -/
theorem send_missed_go_missed (env : Env) (q : List Packet) :
    ∀ (client : Client) (s : NetSt), q ≠ [] →
      (Protocol.send_missed_go env q client s).client.missed_packets = [] := by
  induction q with
  | nil => intro client s h; exact absurd rfl h
  | cons p rest ih =>
    intro client s _
    by_cases hr : rest = []
    · subst hr
      obtain ⟨t0, k0, htr0, hk01, hk03, hatt0, htick0, hm0, ha0, hp0⟩ :=
        send_or_disconnect_shape env { client with missed_packets := [] } p s
      simp only [Protocol.send_missed_go]
      exact hm0
    · simp only [Protocol.send_missed_go]
      exact ih _ _ hr

/-- When every socket write succeeds, the drain loop sends exactly the queue,
one successful write and one pacing tick per entry, in queue order, and only
empties the queue field. -/
theorem send_missed_go_all_ok (env : Env) (hw : ∀ i, env.write_ok i = true)
    (q : List Packet) :
    ∀ (client : Client) (s : NetSt), client.missed_packets = q →
      Protocol.send_missed_go env q client s =
        ⟨{ client with missed_packets := [] },
         ⟨s.cursor + q.length,
          s.trace ++ (q.map (fun p => [Event.writeAttempt p true,
                                       Event.tickMicros 30])).flatten⟩⟩ := by
  induction q with
  | nil =>
    intro client s hq
    obtain ⟨a, r, w, c, m, pl⟩ := client
    simp only at hq
    subst hq
    simp [Protocol.send_missed_go]
  | cons p rest ih =>
    intro client s hq
    obtain ⟨a, r, w, c, m, pl⟩ := client
    simp only at hq
    subst hq
    have hsod : Protocol.send_or_disconnect env
        { Client.mk a r w c (p :: rest) pl with missed_packets := rest } p s
        = ⟨Client.mk a r w c rest pl,
           ⟨s.cursor + 1, s.trace ++ [.writeAttempt p true]⟩⟩ := by
      simp [Protocol.send_or_disconnect,
        send_packet_all_ok env (Client.mk a r w c rest pl) p s hw]
    simp only [Protocol.send_missed_go, hsod]
    rw [ih (Client.mk a r w c rest pl) _ rfl]
    simp
    omega

/-- C3: for every client and packet, when every underlying write fails,
send_packet performs exactly 3 write attempts, sleeping 500 ms after each
failed attempt, then returns PackageWriteError; the trace shows no disconnect
and the client record is untouched by construction.  When the k-th attempt
(k < 3) is the first to succeed, it returns Ok right after that attempt. -/
theorem c3_send_packet_three_attempts (env : Env) (client : Client)
    (packet : Packet) (s : NetSt) :
    ((∀ i, i < 3 → env.write_ok (s.cursor + i) = false) →
      Protocol.send_packet env client packet s =
        ⟨.error (.PackageWriteError "Unknown error"),
         ⟨s.cursor + 3,
          s.trace ++ [.writeAttempt packet false, .sleepMs 500,
                      .writeAttempt packet false, .sleepMs 500,
                      .writeAttempt packet false, .sleepMs 500]⟩⟩) ∧
    (∀ k, k < 3 → (∀ j, j < k → env.write_ok (s.cursor + j) = false) →
      env.write_ok (s.cursor + k) = true →
      Protocol.send_packet env client packet s =
        ⟨.ok (),
         ⟨s.cursor + (k + 1),
          s.trace ++ (List.replicate k [Event.writeAttempt packet false,
                                        Event.sleepMs 500]).flatten
                  ++ [Event.writeAttempt packet true]⟩⟩) := by
  constructor
  · intro h
    have h0 := h 0 (by omega)
    have h1 := h 1 (by omega)
    have h2 := h 2 (by omega)
    simp only [Nat.add_zero] at h0
    simp [Protocol.send_packet, Protocol.send_packet_go, h0, h1, h2]
  · intro k hk hbefore hsucc
    interval_cases k
    · simp only [Nat.add_zero] at hsucc
      simp [Protocol.send_packet, Protocol.send_packet_go, hsucc]
    · have h0 := hbefore 0 (by omega)
      simp only [Nat.add_zero] at h0
      simp [Protocol.send_packet, Protocol.send_packet_go, h0, hsucc]
    · have h0 := hbefore 0 (by omega)
      have h1 := hbefore 1 (by omega)
      simp only [Nat.add_zero] at h0
      simp [Protocol.send_packet, Protocol.send_packet_go, h0, h1, hsucc]

/-- Witness for c3_send_packet_three_attempts: under an always-failing write
oracle the call makes exactly 3 attempts, sleeps after each, and fails. -/
theorem c3_witness :
    Protocol.send_packet envAllFail clientA packetA st0 =
      ⟨.error (.PackageWriteError "Unknown error"),
       ⟨0 + 3,
        [] ++ [.writeAttempt packetA false, .sleepMs 500,
               .writeAttempt packetA false, .sleepMs 500,
               .writeAttempt packetA false, .sleepMs 500]⟩⟩ :=
  (c3_send_packet_three_attempts envAllFail clientA packetA st0).1
    (fun i _ => rfl)

/-- C10: Protocol.disconnect only flips the connected flag to false; the
address, stream halves, missed-packet queue and player record are unchanged,
the write cursor does not move, and the only event appended is the disconnect
log marker - in particular no packet write and no registry operation. -/
theorem c10_disconnect_frame (client : Client) (s : NetSt) :
    (Protocol.disconnect client s).client.connected = false ∧
    (Protocol.disconnect client s).client.addr = client.addr ∧
    (Protocol.disconnect client s).client.read_half = client.read_half ∧
    (Protocol.disconnect client s).client.write_half = client.write_half ∧
    (Protocol.disconnect client s).client.missed_packets
      = client.missed_packets ∧
    (Protocol.disconnect client s).client.player = client.player ∧
    (Protocol.disconnect client s).st.cursor = s.cursor ∧
    (Protocol.disconnect client s).st.trace
      = s.trace ++ [Event.disconnectClient client.addr] ∧
    attempted (Protocol.disconnect client s).st.trace = attempted s.trace := by
  simp [Protocol.disconnect, attempted, List.filterMap_append]

/-- C7: send_missed_packets drains the queue in FIFO order via the
disconnect-on-failure send path: the queue field is empty afterwards, the
appended write attempts are exactly the queued packets in queue order (each
repeated once per attempt, 1 to 3 times), with one pacing tick per entry; and
when every write succeeds the whole run is one successful write plus one tick
per queued packet, in queue order, with only the queue field changed. -/
theorem c7_send_missed_packets_fifo_drain (env : Env) (client : Client)
    (s : NetSt) :
    (Protocol.send_missed_packets env client s).client.missed_packets = [] ∧
    (∃ t ks,
      (Protocol.send_missed_packets env client s).st.trace = s.trace ++ t ∧
      ks.length = client.missed_packets.length ∧
      (∀ k ∈ ks, 1 ≤ k ∧ k ≤ 3) ∧
      attempted t
        = (List.zipWith List.replicate ks client.missed_packets).flatten ∧
      tickCount t = client.missed_packets.length) ∧
    ((∀ i, env.write_ok i = true) →
      Protocol.send_missed_packets env client s =
        ⟨{ client with missed_packets := [] },
         ⟨s.cursor + client.missed_packets.length,
          s.trace ++ (client.missed_packets.map
            (fun p => [Event.writeAttempt p true,
                       Event.tickMicros 30])).flatten⟩⟩) := by
  refine ⟨?_, ?_, ?_⟩
  · by_cases h : client.missed_packets = []
    · simp [Protocol.send_missed_packets, h, Protocol.send_missed_go]
    · exact send_missed_go_missed env client.missed_packets client s h
  · exact send_missed_go_shape env client.missed_packets client s
  · intro hw
    exact send_missed_go_all_ok env hw client.missed_packets client s rfl

/-- Witness for c7_send_missed_packets_fifo_drain: a client with two queued
packets, all writes succeeding, gets them delivered in queue order with a tick
after each, and ends with an empty queue. -/
theorem c7_witness :
    Protocol.send_missed_packets envAllOk clientQ st0 =
      ⟨{ clientQ with missed_packets := [] },
       ⟨0 + 2,
        [] ++ [Event.writeAttempt packetA true, Event.tickMicros 30,
               Event.writeAttempt packetB true, Event.tickMicros 30]⟩⟩ :=
  (c7_send_missed_packets_fifo_drain envAllOk clientQ st0).2.2 (fun i => rfl)

/-- C6: a PlayCard packet whose payload fails to deserialise is answered with
an InvalidPacketPayload send (1 to 3 write attempts of exactly that packet),
the client record is returned unchanged (connected flag included), no
disconnect happens, and no panic is raised. -/
theorem c6_playcard_bad_payload_stays_connected (env : Env) (client : Client)
    (packet : Packet) (s : NetSt) (msg : String)
    (hty : packet.header.header_type = .PlayCard)
    (hparse : env.parsePlayCard packet.payload = .error msg) :
    (Protocol.handle_packet env client packet s).client = client ∧
    (Protocol.handle_packet env client packet s).panicMsg = none ∧
    ∃ t k,
      (Protocol.handle_packet env client packet s).st.trace = s.trace ++ t ∧
      1 ≤ k ∧ k ≤ 3 ∧
      attempted t
        = List.replicate k (Packet.new .InvalidPacketPayload
            Protocol.invalidPlayCardMsg) ∧
      (∀ e ∈ t, e.isDisc = false) := by
  obtain ⟨t, k, htr, hcur, hk1, hk3, hatt, hdisc, htick⟩ :=
    send_packet_shape env client
      (Packet.new .InvalidPacketPayload Protocol.invalidPlayCardMsg) s
  refine ⟨?_, ?_, t, k, ?_, hk1, hk3, hatt, hdisc⟩ <;>
    simp [Protocol.handle_packet, hty, hparse, htr]

/-- Witness for c6_playcard_bad_payload_stays_connected at a concrete client,
packet and environment. -/
theorem c6_witness :
    (Protocol.handle_packet envAllOk clientA packetPC st0).client = clientA ∧
    (Protocol.handle_packet envAllOk clientA packetPC st0).panicMsg = none ∧
    ∃ t k,
      (Protocol.handle_packet envAllOk clientA packetPC st0).st.trace
        = st0.trace ++ t ∧
      1 ≤ k ∧ k ≤ 3 ∧
      attempted t
        = List.replicate k (Packet.new .InvalidPacketPayload
            Protocol.invalidPlayCardMsg) ∧
      (∀ e ∈ t, e.isDisc = false) :=
  c6_playcard_bad_payload_stays_connected envAllOk clientA packetPC st0 "e"
    rfl rfl

/-- C9: handle_play_card is a bare todo!, so it panics on every input; hence
a PlayCard packet whose payload deserialises successfully drives the
dispatcher into that panic. -/
theorem c9_play_card_todo_panics (env : Env) (client : Client) (packet : Packet)
    (s : NetSt) (request : PlayCardRequest) :
    (Protocol.handle_play_card env client request s).panicMsg
      = some "not yet implemented" ∧
    (packet.header.header_type = .PlayCard →
      env.parsePlayCard packet.payload = .ok request →
      (Protocol.handle_packet env client packet s).panicMsg
        = some "not yet implemented") := by
  refine ⟨rfl, ?_⟩
  intro hty hparse
  simp [Protocol.handle_packet, hty, hparse, Protocol.handle_play_card]

/-- Witness for c9_play_card_todo_panics at a concrete client, packet and
environment whose PlayCard payload parses. -/
theorem c9_witness :
    (Protocol.handle_play_card envPlayOk clientA ⟨"p1", "c1"⟩ st0).panicMsg
      = some "not yet implemented" ∧
    (Protocol.handle_packet envPlayOk clientA packetPC st0).panicMsg
      = some "not yet implemented" := by
  have h := c9_play_card_todo_panics envPlayOk clientA packetPC st0 ⟨"p1", "c1"⟩
  exact ⟨h.1, h.2 rfl rfl⟩

/-- C2: a reconnect payload whose resolved profile id differs from the claimed
player id makes Player.reconnection fail with PlayerDoesNotMatch - a variant
distinct from the generic authentication failures - and handle_reconnect
propagates it, leaving the registry (hence the real owner's entry) and the
threaded state untouched. -/
theorem c2_reconnect_mismatch_player_does_not_match (env : Env)
    (registry : Registry) (temp_unique : Bool) (temp : TemporaryClient)
    (packet : Packet) (s : NetSt) (request : ReconnectionRequest)
    (profile : PartialPlayerProfile)
    (hparse : env.parseReconn packet.payload = .ok request)
    (hprof : Player.get_player_profile env.profileResp = .ok profile)
    (hne : profile.id ≠ request.player_id) :
    Player.reconnection (env.parseReconn packet.payload) env.profileResp
      = .error .PlayerDoesNotMatch ∧
    (Protocol.handle_reconnect env registry temp_unique temp packet s).result
      = .error .PlayerDoesNotMatch ∧
    (Protocol.handle_reconnect env registry temp_unique temp packet s).registry
      = registry ∧
    (Protocol.handle_reconnect env registry temp_unique temp packet s).st = s ∧
    PlayerConnectionError.PlayerDoesNotMatch
      ≠ PlayerConnectionError.UnauthorizedPlayerError ∧
    (∀ m, PlayerConnectionError.PlayerDoesNotMatch
      ≠ PlayerConnectionError.InvalidPlayerPayload m) := by
  have hrec : Player.reconnection (env.parseReconn packet.payload)
      env.profileResp = .error .PlayerDoesNotMatch := by
    simp [Player.reconnection, hparse, hprof, hne]
  refine ⟨hrec, ?_, ?_, ?_, by simp, by simp⟩ <;>
    simp [Protocol.handle_reconnect, hrec]

/-- Witness for c2_reconnect_mismatch_player_does_not_match: the profile
resolves to id p1 while the payload claims id p2. -/
theorem c2_witness :
    Player.reconnection ((envReconnMismatch.parseReconn) packetA.payload)
      envReconnMismatch.profileResp = .error .PlayerDoesNotMatch ∧
    (Protocol.handle_reconnect envReconnMismatch [("p1", clientA)] true tempB
        packetA st0).result = .error .PlayerDoesNotMatch ∧
    (Protocol.handle_reconnect envReconnMismatch [("p1", clientA)] true tempB
        packetA st0).registry = [("p1", clientA)] ∧
    (Protocol.handle_reconnect envReconnMismatch [("p1", clientA)] true tempB
        packetA st0).st = st0 ∧
    PlayerConnectionError.PlayerDoesNotMatch
      ≠ PlayerConnectionError.UnauthorizedPlayerError ∧
    (∀ m, PlayerConnectionError.PlayerDoesNotMatch
      ≠ PlayerConnectionError.InvalidPlayerPayload m) :=
  c2_reconnect_mismatch_player_does_not_match envReconnMismatch
    [("p1", clientA)] true tempB packetA st0 ⟨"p2", "tok"⟩ profileA rfl rfl
    (by decide)

/-- C4: a connect request whose token the profile service rejects with a 401
response makes the whole chain (new_connection inside handle_connect) fail
with UnauthorizedPlayerError before any promotion: the registry and state are
returned untouched (no Client built, nothing inserted, no task spawned), and
the temporary-connection task then attempts an error response and closes the
socket. -/
theorem c4_unauthorized_connect_not_promoted (env : Env) (registry : Registry)
    (temp_unique : Bool) (temp : TemporaryClient) (packet : Packet) (s : NetSt)
    (request : ConnectionRequest) (body : Except String PartialPlayerProfile)
    (hparse : env.parseConn packet.payload = .ok request)
    (hresp : env.profileResp = .ok 401 body) :
    (Protocol.handle_connect env registry temp_unique temp packet s).result
      = .error .UnauthorizedPlayerError ∧
    (Protocol.handle_connect env registry temp_unique temp packet s).registry
      = registry ∧
    (Protocol.handle_connect env registry temp_unique temp packet s).st = s ∧
    (Protocol.temp_connect_task env registry temp_unique temp packet s).registry
      = registry ∧
    (Protocol.temp_connect_task env registry temp_unique temp packet s).st.trace
      = s.trace ++ [Event.errorResponse, Event.closeSocket] := by
  have hconn : Player.new_connection (env.parseConn packet.payload)
      env.profileResp env.deckResp = .error .UnauthorizedPlayerError := by
    simp [Player.new_connection, hparse, hresp, Player.get_player_profile]
  refine ⟨?_, ?_, ?_, ?_, ?_⟩ <;>
    simp [Protocol.handle_connect, Protocol.temp_connect_task, hconn]

/-- Witness for c4_unauthorized_connect_not_promoted under env401. -/
theorem c4_witness :
    (Protocol.handle_connect env401 [] true tempA packetA st0).result
      = .error .UnauthorizedPlayerError ∧
    (Protocol.handle_connect env401 [] true tempA packetA st0).registry = [] ∧
    (Protocol.handle_connect env401 [] true tempA packetA st0).st = st0 ∧
    (Protocol.temp_connect_task env401 [] true tempA packetA st0).registry
      = [] ∧
    (Protocol.temp_connect_task env401 [] true tempA packetA st0).st.trace
      = st0.trace ++ [Event.errorResponse, Event.closeSocket] :=
  c4_unauthorized_connect_not_promoted env401 [] true tempA packetA st0
    ⟨"p1", "tok", "d1"⟩ (.error "unauthorized") rfl rfl

/-- C5 as stated is false on the code: a received non-2xx, non-401 response
(here a 500 whose body does not deserialise) is mapped to InvalidPlayerPayload
by the deserialisation step, not to UnexpectedPlayerError. -/
theorem c5_counterexample :
    Player.get_player_profile (HttpResp.ok 500 (Except.error "server error"))
      = Except.error (PlayerConnectionError.InvalidPlayerPayload
          "Failed to deserialize player profile") ∧
    PlayerConnectionError.InvalidPlayerPayload
        "Failed to deserialize player profile"
      ≠ PlayerConnectionError.UnexpectedPlayerError ∧
    (500 : Nat) ≠ 401 ∧ ¬ (200 ≤ (500 : Nat) ∧ (500 : Nat) < 300) := by
  exact ⟨rfl, by simp, by simp, by simp⟩

/-- C5 amended: get_player_profile maps a received 401 and a transport error
carrying 401 to UnauthorizedPlayerError, a transport error with any other
status to UnexpectedPlayerError, and every other received response (2xx or
not) to the outcome of deserialising its body, failing with
InvalidPlayerPayload rather than UnexpectedPlayerError. -/
theorem c5_amended_profile_status_mapping (status : Nat)
    (body : Except String PartialPlayerProfile) (st : Option Nat) :
    (Player.get_player_profile (.ok 401 body)
      = .error .UnauthorizedPlayerError) ∧
    (st.getD 500 = 401 →
      Player.get_player_profile (.err st) = .error .UnauthorizedPlayerError) ∧
    (st.getD 500 ≠ 401 →
      Player.get_player_profile (.err st) = .error .UnexpectedPlayerError) ∧
    (status ≠ 401 →
      Player.get_player_profile (.ok status body)
        = match body with
          | .ok profile => .ok profile
          | .error _ =>
            .error (.InvalidPlayerPayload
              "Failed to deserialize player profile")) := by
  refine ⟨by simp [Player.get_player_profile], ?_, ?_, ?_⟩
  · intro h
    simp [Player.get_player_profile, h]
  · intro h
    simp [Player.get_player_profile, h]
  · intro h
    simp [Player.get_player_profile, h]

/-- Witness for c5_amended_profile_status_mapping: a 503 transport error is
unexpected; a received 500 with an undeserialisable body is
InvalidPlayerPayload. -/
theorem c5_witness :
    Player.get_player_profile (.err (some 503))
      = .error .UnexpectedPlayerError ∧
    Player.get_player_profile (.ok 500 (.error "x"))
      = .error (.InvalidPlayerPayload
          "Failed to deserialize player profile") := by
  have h := c5_amended_profile_status_mapping 500 (.error "x") (some 503)
  exact ⟨h.2.2.1 (by decide), h.2.2.2 (by decide)⟩

/-- C8 as stated is false on the code: two connect attempts for the same
player id that both complete successfully both return Ok - the loser gets no
internal error - and the second insert silently replaces the first client in
the registry slot. -/
theorem c8_counterexample :
    (Protocol.handle_connect envConnOk [] true tempA packetA st0).result
      = .ok () ∧
    (Protocol.handle_connect envConnOk
        (Protocol.handle_connect envConnOk [] true tempA packetA st0).registry
        true tempB packetA st0).result = .ok () ∧
    registryLookup
      (Protocol.handle_connect envConnOk
        (Protocol.handle_connect envConnOk [] true tempA packetA st0).registry
        true tempB packetA st0).registry "p1"
      = some (Client.new 2 2 "addrB" playerA) ∧
    Client.new 2 2 "addrB" playerA ≠ Client.new 1 1 "addrA" playerA := by
  exact ⟨rfl, rfl, rfl, by decide⟩

/-- C8 amended: registry mutation is serialized (insert under an exclusive
lock), so of two completed connect attempts for one player id exactly the
later insert owns the registry slot; both attempts return Ok, the earlier
client record is silently replaced, and InternalError arises only from a
non-uniquely-owned temporary handle, not from the collision. -/
theorem c8_amended_second_connect_overwrites (env : Env) (registry : Registry)
    (ta tb : TemporaryClient) (packet : Packet) (s1 s2 : NetSt)
    (player : Player)
    (hconn : Player.new_connection (env.parseConn packet.payload)
        env.profileResp env.deckResp = .ok player) :
    (Protocol.handle_connect env registry true ta packet s1).result
      = .ok () ∧
    registryLookup
      (Protocol.handle_connect env registry true ta packet s1).registry
      player.id
      = some (Client.new ta.stream ta.stream ta.addr player) ∧
    (Protocol.handle_connect env
        (Protocol.handle_connect env registry true ta packet s1).registry
        true tb packet s2).result = .ok () ∧
    registryLookup
      (Protocol.handle_connect env
        (Protocol.handle_connect env registry true ta packet s1).registry
        true tb packet s2).registry player.id
      = some (Client.new tb.stream tb.stream tb.addr player) := by
  cases hf : env.fetch_cards_ok <;>
    simp [Protocol.handle_connect, hconn, hf, registryLookup_insert]

/-- Witness for c8_amended_second_connect_overwrites on two concrete
temporary clients authenticating as the same player. -/
theorem c8_witness :
    (Protocol.handle_connect envConnOk [] true tempA packetA st0).result
      = .ok () ∧
    registryLookup
      (Protocol.handle_connect envConnOk [] true tempA packetA st0).registry
      playerA.id
      = some (Client.new tempA.stream tempA.stream tempA.addr playerA) ∧
    (Protocol.handle_connect envConnOk
        (Protocol.handle_connect envConnOk [] true tempA packetA st0).registry
        true tempB packetA st0).result = .ok () ∧
    registryLookup
      (Protocol.handle_connect envConnOk
        (Protocol.handle_connect envConnOk [] true tempA packetA st0).registry
        true tempB packetA st0).registry playerA.id
      = some (Client.new tempB.stream tempB.stream tempB.addr playerA) :=
  c8_amended_second_connect_overwrites envConnOk [] tempA tempB packetA st0 st0
    playerA rfl

/-- C1: evaluation of the code at the failing input.  The buffer parses to a
packet whose claimed checksum 1 differs from the computed checksum 0; with the
InvalidChecksum send succeeding, handle_incoming routes through
send_or_disconnect and the client stays connected - the trace holds exactly
the successful write and no disconnect marker - contradicting the claimed
unconditional send-then-disconnect. -/
theorem c1_checksum_mismatch_no_unconditional_disconnect :
    Packet.parse badChecksumBuffer
      = .ok ⟨⟨.Disconnect, 0, 1⟩, []⟩ ∧
    Checksum.check 1 [] = false ∧
    (Protocol.handle_incoming envAllOk clientA badChecksumBuffer
        st0).client.connected = true ∧
    (Protocol.handle_incoming envAllOk clientA badChecksumBuffer st0).client
      = clientA ∧
    (Protocol.handle_incoming envAllOk clientA badChecksumBuffer st0).st.trace
      = [Event.writeAttempt (Packet.new .InvalidChecksum []) true] := by
  exact ⟨rfl, rfl, rfl, rfl, rfl⟩
